import Mathlib

/-!
# mod_fcgid, `arch/win32/fcgid_pm_win.c`: the command relay

A shallow embedding of the relay between request threads and the process
manager thread.  The globals of the C file are the fields of `Relay`; every
function of the file is embedded as the transition function of its body, one
transition per call of a thread-safe APR primitive (the local work that follows
the call is part of the same transition).  A call that is run alone is the
iteration of that transition function (`run_post`, `run_peek`, `run_stop`); the
threads run together in `step`.

The APR primitives are not part of the repository.  They are modelled from
their contract: a blocking call that cannot proceed has no transition, and the
environment input `e : Option apr_status_t` of a transition says whether the
primitive called there fails (`some rv`) or behaves normally (`none`); a
transition that calls no such primitive ignores it.
-/

namespace ModFcgid

/-! ## Statuses, pointers, commands -/

abbrev apr_status_t := Int

/-- Value of `APR_SUCCESS` in `apr_errno.h`. -/
def APR_SUCCESS : apr_status_t := 0

/-- Value of `APR_ENOMEM` (`ENOMEM`) in `apr_errno.h`. -/
def APR_ENOMEM : apr_status_t := 12

/-- Value of `APR_EAGAIN` (`EAGAIN`) in `apr_errno.h`. -/
def APR_EAGAIN : apr_status_t := 11

/-- Value of `APR_TIMEUP` (`APR_OS_START_STATUS + 7`) in `apr_errno.h`. -/
def APR_TIMEUP : apr_status_t := 70007

/-- Value of `APR_EOF` (`APR_OS_START_STATUS + 14`) in `apr_errno.h`, one of the
failure statuses of the queue calls. -/
def APR_EOF : apr_status_t := 70014

/-- Line 8: `#define FCGID_MSGQUEUE_SIZE 10`. -/
def FCGID_MSGQUEUE_SIZE : Nat := 10

/-- A pointer is an address; address `0` is `NULL`. -/
abbrev Ptr := Nat

def NULL : Ptr := 0

/-- The command record; the fields are those written by `procmgr_init_spawn_cmd`
(lines 111-118).  `cgipath` is the byte string of the path. -/
structure fcgid_command where
  cgipath : List Nat
  deviceid : Int
  inode : Int
  share_grp_id : Nat
  uid : Int
  gid : Int
  userdir : Int
deriving DecidableEq, Inhabited

/-! ## The C heap -/

/-- The heap of envelopes: the live blocks with their content, the number of
blocks handed out so far (block `n` lives at address `n`), and the log of the
addresses passed to `free`, oldest first. -/
structure Heap where
  cells : List (Ptr × fcgid_command)
  allocs : Nat
  freed : List Ptr
deriving DecidableEq

/-- Content of the live block at `p`, if there is one. -/
def Heap.read (h : Heap) (p : Ptr) : Option fcgid_command :=
  (h.cells.find? (fun c => c.1 == p)).map Prod.snd

/-- A successful `malloc(sizeof(fcgid_command))`: a fresh non-null address
whose block holds unspecified content. -/
def malloc (h : Heap) : Ptr × Heap :=
  (h.allocs + 1,
   { h with cells := (h.allocs + 1, default) :: h.cells, allocs := h.allocs + 1 })

/-- The copy `memcpy(dst, src, sizeof(fcgid_command))` into a heap block: the
whole record at `dst` is overwritten. -/
def memcpy (h : Heap) (dst : Ptr) (src : fcgid_command) : Heap :=
  { h with cells := h.cells.map (fun c => if c.1 = dst then (dst, src) else c) }

/-- The call `free(p)`: the block is no longer live and the call is logged. -/
def free (h : Heap) (p : Ptr) : Heap :=
  { h with cells := h.cells.filter (fun c => c.1 != p), freed := h.freed ++ [p] }

/-! ## APR queues and mutexes -/

/-- An `apr_queue_t`: the queued pointers, oldest first, and the capacity. -/
structure apr_queue_t where
  data : List Ptr
  bounds : Nat
deriving DecidableEq

/-- Modelled from the spec: `apr_queue_create` is an APR primitive (section 4.1,
fixed-capacity FIFO). -/
def apr_queue_create (capacity : Nat) : apr_queue_t :=
  { data := [], bounds := capacity }

/-- Modelled from the spec: the blocking `apr_queue_push` is an APR primitive
(section 4.1: a blocking push suspends until space frees).  With room the entry
is appended.  On a full queue the call waits (no transition) unless the wait is
broken off with a failure status `rv`. -/
def apr_queue_push (e : Option apr_status_t) (q : apr_queue_t) (x : Ptr) :
    Option (apr_status_t × apr_queue_t) :=
  if q.data.length < q.bounds then
    match e with
    | none => some (APR_SUCCESS, { q with data := q.data ++ [x] })
    | some _ => none
  else
    match e with
    | none => none
    | some rv => if rv = APR_SUCCESS then none else some (rv, q)

/-- Modelled from the spec: `apr_queue_trypush` is an APR primitive (section
4.1: push succeeds only if capacity is available, else fails with Full). -/
def apr_queue_trypush (q : apr_queue_t) (x : Ptr) : apr_status_t × apr_queue_t :=
  if q.data.length < q.bounds then (APR_SUCCESS, { q with data := q.data ++ [x] })
  else (APR_EAGAIN, q)

/-- Modelled from the spec: the blocking `apr_queue_pop` is an APR primitive
(section 4.1: pop suspends until an entry is available, strict FIFO).  The
result carries the new value of the out variable (`out` itself when nothing
was popped).  On an empty queue the call waits unless the wait is broken off
with a failure status. -/
def apr_queue_pop (e : Option apr_status_t) (q : apr_queue_t) (out : Ptr) :
    Option (apr_status_t × Ptr × apr_queue_t) :=
  match q.data with
  | x :: rest =>
    match e with
    | none => some (APR_SUCCESS, x, { q with data := rest })
    | some _ => none
  | [] =>
    match e with
    | none => none
    | some rv => if rv = APR_SUCCESS then none else some (rv, out, q)

/-- Modelled from the spec: `apr_queue_trypop` is an APR primitive (section
4.1, the polling variant of pop). -/
def apr_queue_trypop (q : apr_queue_t) (out : Ptr) : apr_status_t × Ptr × apr_queue_t :=
  match q.data with
  | x :: rest => (APR_SUCCESS, x, { q with data := rest })
  | [] => (APR_EAGAIN, out, q)

/-- An `apr_thread_mutex_t` created with `APR_THREAD_MUTEX_DEFAULT`: the thread
that holds it and how many times it has acquired it. -/
structure apr_thread_mutex_t where
  owner : Option Nat
  depth : Nat
deriving DecidableEq

/-- Modelled from the spec: `apr_thread_mutex_lock` is an APR primitive (section
4.2: acquire, suspend if held).  A free lock is taken; the holder may take it
again (the default mutex of this platform nests); held by another thread the
call waits.  The environment may make the call fail with a status `rv`. -/
def apr_thread_mutex_lock (t : Nat) (e : Option apr_status_t) (m : apr_thread_mutex_t) :
    Option (apr_status_t × apr_thread_mutex_t) :=
  match e with
  | some rv => if rv = APR_SUCCESS then none else some (rv, m)
  | none =>
    match m.owner with
    | none => some (APR_SUCCESS, { owner := some t, depth := 1 })
    | some o => if o = t then some (APR_SUCCESS, { m with depth := m.depth + 1 }) else none

/-- Modelled from the spec: `apr_thread_mutex_unlock` is an APR primitive
(section 4.2).  The holder gives up one acquisition; the lock is free when none
is left.  The environment may make the call fail, which leaves the lock as it
is.  Unlocking a mutex held by nobody or by another thread is undefined. -/
def apr_thread_mutex_unlock (t : Nat) (e : Option apr_status_t) (m : apr_thread_mutex_t) :
    Option (apr_status_t × apr_thread_mutex_t) :=
  match e with
  | some rv => if rv = APR_SUCCESS then none else some (rv, m)
  | none =>
    if m.owner = some t then
      if m.depth ≤ 1 then some (APR_SUCCESS, { owner := none, depth := 0 })
      else some (APR_SUCCESS, { m with depth := m.depth - 1 })
    else none

/-! ## The globals of the file -/

/-- Lines 10-16: the file-scope variables, the heap, and whether `exit(1)` has
been called.  A thread handle is `true` when it is not `NULL`; a queue or mutex
handle is `none` when it is `NULL`. -/
structure Relay where
  g_thread : Bool
  g_msgqueue : Option apr_queue_t
  g_notifyqueue : Option apr_queue_t
  g_reqlock : Option apr_thread_mutex_t
  g_wakeup_thread : Bool
  g_must_exit : Int
  g_wakeup_timeout : Int
  heap : Heap
  exited : Bool
deriving DecidableEq

/-- The variables as initialised at lines 10-16, with an empty heap. -/
def Relay.start : Relay :=
  { g_thread := false, g_msgqueue := none, g_notifyqueue := none, g_reqlock := none,
    g_wakeup_thread := false, g_must_exit := 0, g_wakeup_timeout := 3,
    heap := { cells := [], allocs := 0, freed := [] }, exited := false }

/-- The C macro `min(a, b)`, that is `((a) < (b) ? (a) : (b))`. -/
def c_min (a b : Int) : Int := if a < b then a else b

/-- Environment of `procmgr_post_config`: the three configured scan intervals
and, for each creation call, whether it fails. -/
structure ConfigEnv where
  error_scan_interval : Int
  busy_scan_interval : Int
  idle_scan_interval : Int
  msgqueue_fails : Bool
  notifyqueue_fails : Bool
  mutex_fails : Bool
  thread_fails : Bool
  wakeup_thread_fails : Bool
deriving DecidableEq

/-- Lines 45-105.  The result is the globals on return; a failed creation calls
`exit(1)` at once. -/
def procmgr_post_config (c : ConfigEnv) (s : Relay) : Relay :=
  -- lines 55-63
  if c.msgqueue_fails then { s with exited := true } else
  let s := { s with g_msgqueue := some (apr_queue_create FCGID_MSGQUEUE_SIZE) }
  if c.notifyqueue_fails then { s with exited := true } else
  let s := { s with g_notifyqueue := some (apr_queue_create FCGID_MSGQUEUE_SIZE) }
  -- lines 66-73
  if c.mutex_fails then { s with exited := true } else
  let s := { s with g_reqlock := some { owner := none, depth := 0 } }
  -- lines 76-82
  let s := { s with g_wakeup_timeout := c_min c.error_scan_interval c.busy_scan_interval }
  let s := { s with g_wakeup_timeout := c_min c.idle_scan_interval s.g_wakeup_timeout }
  let s := if s.g_wakeup_timeout = 0 then { s with g_wakeup_timeout := 1 } else s
  -- lines 85-91
  if c.thread_fails then { s with exited := true } else
  let s := { s with g_thread := true }
  -- lines 96-102
  if c.wakeup_thread_fails then { s with exited := true } else
  { s with g_wakeup_thread := true }

/-- Lines 224-227. -/
def procmgr_must_exit (s : Relay) : Int := s.g_must_exit

/-! ## `procmgr_post_spawn_cmd` -/

/-- Program points of `procmgr_post_spawn_cmd`. -/
inductive PostPc
  /-- Line 126, the test of the globals. -/
  | entry
  /-- Lines 134-138, `malloc` and `memcpy`. -/
  | alloc
  /-- Line 141, the first `apr_thread_mutex_lock`. -/
  | lock
  /-- Line 148, `apr_queue_push(g_msgqueue, postcmd)`. -/
  | push
  /-- Lines 149-153, after a failed push: unlock, free, return. -/
  | push_failed
  /-- Lines 158-160, `apr_queue_pop(g_notifyqueue, &notifybyte)`. -/
  | wait_notify
  /-- Lines 161-164, after a failed pop: lock again, return. -/
  | relock
  /-- Lines 169-174, `apr_thread_mutex_unlock`. -/
  | unlock
  /-- The call has returned this status. -/
  | ret (rv : apr_status_t)
  /-- The call has ended in `exit(1)` (line 173). -/
  | fatal
deriving DecidableEq

/-- The activation record of one call of `procmgr_post_spawn_cmd`. -/
structure PostFrame where
  pc : PostPc
  command : fcgid_command
  postcmd : Ptr
  rv : apr_status_t
  notifybyte : Ptr
deriving DecidableEq

/-- The record on entry, for the argument `command`. -/
def PostFrame.call (command : fcgid_command) : PostFrame :=
  { pc := PostPc.entry, command := command, postcmd := NULL, rv := APR_SUCCESS,
    notifybyte := NULL }

/-- Lines 121-178, one transition of the call made by thread `t`. -/
def procmgr_post_spawn_cmd (t : Nat) (e : Option apr_status_t) (f : PostFrame) (s : Relay) :
    Option (PostFrame × Relay) :=
  match f.pc with
  | PostPc.entry =>
    -- lines 126-127
    if s.g_thread && s.g_msgqueue.isSome && s.g_must_exit == 0
        && s.g_reqlock.isSome && s.g_notifyqueue.isSome then
      some ({ f with pc := PostPc.alloc }, s)
    else
      -- line 177
      some ({ f with pc := PostPc.ret APR_SUCCESS }, s)
  | PostPc.alloc =>
    match e with
    | some _ =>
      -- lines 136-137, `malloc` returned `NULL`
      some ({ f with postcmd := NULL, pc := PostPc.ret APR_ENOMEM }, s)
    | none =>
      -- lines 134-138
      let (p, h) := malloc s.heap
      some ({ f with postcmd := p, pc := PostPc.lock }, { s with heap := memcpy h p f.command })
  | PostPc.lock =>
    -- lines 141-145
    match s.g_reqlock with
    | none => none
    | some m =>
      match apr_thread_mutex_lock t e m with
      | none => none
      | some (rv, m') =>
        if rv != APR_SUCCESS then
          some ({ f with rv := rv, pc := PostPc.ret rv }, { s with g_reqlock := some m' })
        else
          some ({ f with rv := rv, pc := PostPc.push }, { s with g_reqlock := some m' })
  | PostPc.push =>
    -- line 148
    match s.g_msgqueue with
    | none => none
    | some q =>
      match apr_queue_push e q f.postcmd with
      | none => none
      | some (rv, q') =>
        if rv != APR_SUCCESS then
          some ({ f with rv := rv, pc := PostPc.push_failed }, { s with g_msgqueue := some q' })
        else
          some ({ f with rv := rv, pc := PostPc.wait_notify }, { s with g_msgqueue := some q' })
  | PostPc.push_failed =>
    -- lines 149-153; the status of the unlock is dropped
    match s.g_reqlock with
    | none => none
    | some m =>
      match apr_thread_mutex_unlock t e m with
      | none => none
      | some (_, m') =>
        some ({ f with pc := PostPc.ret f.rv },
              { s with g_reqlock := some m', heap := free s.heap f.postcmd })
  | PostPc.wait_notify =>
    -- lines 156-160
    match s.g_notifyqueue with
    | none => none
    | some q =>
      match apr_queue_pop e q NULL with
      | none => none
      | some (rv, x, q') =>
        if rv != APR_SUCCESS then
          some ({ f with rv := rv, notifybyte := x, pc := PostPc.relock },
                { s with g_notifyqueue := some q' })
        else
          some ({ f with rv := rv, notifybyte := x, pc := PostPc.unlock },
                { s with g_notifyqueue := some q' })
  | PostPc.relock =>
    -- lines 161-164; the status of the lock is dropped
    match s.g_reqlock with
    | none => none
    | some m =>
      match apr_thread_mutex_lock t e m with
      | none => none
      | some (_, m') => some ({ f with pc := PostPc.ret f.rv }, { s with g_reqlock := some m' })
  | PostPc.unlock =>
    -- lines 169-174
    match s.g_reqlock with
    | none => none
    | some m =>
      match apr_thread_mutex_unlock t e m with
      | none => none
      | some (rv, m') =>
        if rv != APR_SUCCESS then
          some ({ f with pc := PostPc.fatal }, { s with g_reqlock := some m', exited := true })
        else
          -- line 177
          some ({ f with pc := PostPc.ret APR_SUCCESS }, { s with g_reqlock := some m' })
  | PostPc.ret _ => none
  | PostPc.fatal => none

/-- The call of thread `t` run alone for at most `n` transitions, the
environment input of each transition given by `env` at its program point.  The
run ends where the call has returned (`ret`), has called `exit` (`fatal`), or
has no transition (it waits). -/
def run_post (t : Nat) (env : PostPc → Option apr_status_t) :
    Nat → PostFrame → Relay → PostFrame × Relay
  | 0, f, s => (f, s)
  | n + 1, f, s =>
    match procmgr_post_spawn_cmd t (env f.pc) f s with
    | none => (f, s)
    | some (f', s') => run_post t env n f' s'

/-- The environment in which no primitive fails. -/
def no_fault {α : Type} : α → Option apr_status_t := fun _ => none

/-- The call `procmgr_post_spawn_cmd(command, r)` of thread `t`, run alone. -/
def call_post (t : Nat) (env : PostPc → Option apr_status_t) (command : fcgid_command)
    (s : Relay) : PostFrame × Relay :=
  run_post t env 8 (PostFrame.call command) s

/-! ## `procmgr_finish_notify` and `procmgr_peek_cmd` -/

/-- Lines 180-191: the status returned and the globals on return; no transition
while the push waits. -/
def procmgr_finish_notify (e : Option apr_status_t) (s : Relay) :
    Option (apr_status_t × Relay) :=
  match s.g_notifyqueue with
  | none => none
  | some q =>
    match apr_queue_push e q NULL with
    | none => none
    | some (rv, q') => some (rv, { s with g_notifyqueue := some q' })

/-- Program points of `procmgr_peek_cmd`. -/
inductive PeekPc
  /-- Line 199, the test of the globals. -/
  | entry
  /-- Lines 200-209, `apr_queue_pop(g_msgqueue, &peakcmd)` and what follows it. -/
  | pop
  /-- The call has returned this status. -/
  | ret (rv : apr_status_t)
deriving DecidableEq

/-- The activation record of one call of `procmgr_peek_cmd`; `command` is the
storage the caller provided. -/
structure PeekFrame where
  pc : PeekPc
  command : fcgid_command
  peakcmd : Ptr
deriving DecidableEq

/-- The record on entry, for the storage `command`. -/
def PeekFrame.call (command : fcgid_command) : PeekFrame :=
  { pc := PeekPc.entry, command := command, peakcmd := NULL }

/-- Lines 193-214, one transition of the call.  Reading through a pointer to a
block that is not live is undefined (no transition). -/
def procmgr_peek_cmd (e : Option apr_status_t) (f : PeekFrame) (s : Relay) :
    Option (PeekFrame × Relay) :=
  match f.pc with
  | PeekPc.entry =>
    -- line 199
    if s.g_must_exit == 0 && s.g_msgqueue.isSome then some ({ f with pc := PeekPc.pop }, s)
    else
      -- line 213
      some ({ f with pc := PeekPc.ret APR_TIMEUP }, s)
  | PeekPc.pop =>
    match s.g_msgqueue with
    | none => none
    | some q =>
      -- line 200
      match apr_queue_pop e q f.peakcmd with
      | none => none
      | some (rv, x, q') =>
        if rv == APR_SUCCESS then
          if x == NULL then
            -- lines 201-202
            some ({ f with peakcmd := x, pc := PeekPc.ret APR_TIMEUP },
                  { s with g_msgqueue := some q' })
          else
            -- lines 205-208
            match s.heap.read x with
            | none => none
            | some c =>
              some ({ f with peakcmd := x, command := c, pc := PeekPc.ret APR_SUCCESS },
                    { s with g_msgqueue := some q', heap := free s.heap x })
        else
          -- line 213
          some ({ f with peakcmd := x, pc := PeekPc.ret APR_TIMEUP },
                { s with g_msgqueue := some q' })
  | PeekPc.ret _ => none

/-- A call of `procmgr_peek_cmd` run alone for at most `n` transitions. -/
def run_peek (env : PeekPc → Option apr_status_t) : Nat → PeekFrame → Relay → PeekFrame × Relay
  | 0, f, s => (f, s)
  | n + 1, f, s =>
    match procmgr_peek_cmd (env f.pc) f s with
    | none => (f, s)
    | some (f', s') => run_peek env n f' s'

/-- The call `procmgr_peek_cmd(command, main_server)`, run alone. -/
def call_peek (env : PeekPc → Option apr_status_t) (command : fcgid_command) (s : Relay) :
    PeekFrame × Relay :=
  run_peek env 4 (PeekFrame.call command) s

/-! ## `procmgr_stop_procmgr` -/

/-- Program points of `procmgr_stop_procmgr`. -/
inductive StopPc
  /-- The function has not been called. -/
  | idle
  /-- Line 234, `g_must_exit = 1`. -/
  | entry
  /-- Lines 235-236, `apr_queue_push(g_msgqueue, NULL)`. -/
  | push
  /-- Line 239, `apr_thread_join(&status, g_thread)`. -/
  | join
  /-- Lines 243-246, one round of the loop: `apr_queue_trypop`, then `free`. -/
  | drain
  /-- Lines 249-252, `apr_thread_join(&status, g_wakeup_thread)`. -/
  | join_wakeup
  /-- The call has returned this status. -/
  | ret (rv : apr_status_t)
deriving DecidableEq

/-- The activation record of one call of `procmgr_stop_procmgr`. -/
structure StopFrame where
  pc : StopPc
  peakcmd : Ptr
deriving DecidableEq

/-- Modelled from the spec: `apr_thread_join` is an APR primitive (section 4.5:
join of a background thread).  It returns once the thread has ended (`ended`)
and waits until then; the environment may make it fail. -/
def apr_thread_join (e : Option apr_status_t) (ended : Bool) : Option apr_status_t :=
  match e with
  | some rv => if rv = APR_SUCCESS then none else some rv
  | none => if ended then some APR_SUCCESS else none

/-- Lines 229-253, one transition of the call.  `thread_ended` and
`wakeup_ended` say whether the process manager thread and the wake up thread
have returned from their thread functions. -/
def procmgr_stop_procmgr (e : Option apr_status_t) (thread_ended wakeup_ended : Bool)
    (f : StopFrame) (s : Relay) : Option (StopFrame × Relay) :=
  match f.pc with
  | StopPc.idle => none
  | StopPc.entry =>
    -- line 234
    some ({ f with pc := StopPc.push }, { s with g_must_exit := 1 })
  | StopPc.push =>
    -- lines 235-236; the status of the push is dropped
    match s.g_msgqueue with
    | none => some ({ f with pc := StopPc.join }, s)
    | some q =>
      match apr_queue_push e q NULL with
      | none => none
      | some (_, q') => some ({ f with pc := StopPc.join }, { s with g_msgqueue := some q' })
  | StopPc.join =>
    -- line 239
    if s.g_thread then
      match apr_thread_join e thread_ended with
      | none => none
      | some rv =>
        if rv == APR_SUCCESS then some ({ f with peakcmd := NULL, pc := StopPc.drain }, s)
        else some ({ f with pc := StopPc.join_wakeup }, s)
    else some ({ f with pc := StopPc.join_wakeup }, s)
  | StopPc.drain =>
    -- lines 243-246
    match s.g_msgqueue with
    | none => none
    | some q =>
      match apr_queue_trypop q f.peakcmd with
      | (rv, x, q') =>
        if rv == APR_SUCCESS then
          if x != NULL then
            some ({ f with peakcmd := x },
                  { s with g_msgqueue := some q', heap := free s.heap x })
          else
            some ({ f with peakcmd := x }, { s with g_msgqueue := some q' })
        else
          some ({ f with peakcmd := x, pc := StopPc.join_wakeup },
                { s with g_msgqueue := some q' })
  | StopPc.join_wakeup =>
    -- lines 249-252
    if s.g_wakeup_thread then
      match apr_thread_join e wakeup_ended with
      | none => none
      | some rv => some ({ f with pc := StopPc.ret rv }, s)
    else
      -- line 252
      some ({ f with pc := StopPc.ret APR_SUCCESS }, s)
  | StopPc.ret _ => none

/-- The record of `procmgr_stop_procmgr` on entry. -/
def StopFrame.call : StopFrame := { pc := StopPc.entry, peakcmd := NULL }

/-! ## `wakeup_thread` -/

/-- Program points of `wakeup_thread`. -/
inductive WakeupPc
  /-- Line 20, the test of the outer loop. -/
  | outer
  /-- Lines 24-27, one round of the inner loop. -/
  | inner
  /-- Lines 31-32, the push of the wake up message. -/
  | send
  /-- The thread function has returned (line 34). -/
  | ended
deriving DecidableEq

/-- The activation record of `wakeup_thread`. -/
structure WakeupFrame where
  pc : WakeupPc
  i : Int
deriving DecidableEq

/-- Lines 18-35, one transition of the thread. -/
def wakeup_thread (f : WakeupFrame) (s : Relay) : Option (WakeupFrame × Relay) :=
  match f.pc with
  | WakeupPc.outer =>
    -- line 20
    if s.g_must_exit == 0 then some ({ f with i := 0, pc := WakeupPc.inner }, s)
    else some ({ f with pc := WakeupPc.ended }, s)
  | WakeupPc.inner =>
    -- lines 24-27
    if f.i < s.g_wakeup_timeout then
      if s.g_must_exit != 0 then some ({ f with pc := WakeupPc.send }, s)
      else some ({ f with i := f.i + 1 }, s)
    else some ({ f with pc := WakeupPc.send }, s)
  | WakeupPc.send =>
    -- lines 31-32; the status of the push is dropped
    match s.g_msgqueue with
    | some q =>
      if s.g_must_exit == 0 then
        some ({ f with pc := WakeupPc.outer },
              { s with g_msgqueue := some (apr_queue_trypush q NULL).2 })
      else some ({ f with pc := WakeupPc.outer }, s)
    | none => some ({ f with pc := WakeupPc.outer }, s)
  | WakeupPc.ended => none

/-! ## The process manager thread -/

/-- Program points of the loop of `pm_main`, which `worker_thread` runs. -/
inductive PmPc
  /-- The test `procmgr_must_exit()` at the top of the loop. -/
  | poll
  /-- Inside `procmgr_peek_cmd`. -/
  | peek (f : PeekFrame)
  /-- The handler of a received command runs. -/
  | handle
  /-- The call of `procmgr_finish_notify`. -/
  | notify
  /-- The thread function has returned (line 42). -/
  | ended
deriving DecidableEq

/-- The activation record of the loop: its program point, its command storage,
and (a record kept for the proofs only) the address of the envelope received
last. -/
structure PmFrame where
  pc : PmPc
  command : fcgid_command
  last : Ptr
deriving DecidableEq

/-- Modelled from the spec: `pm_main` (`fcgid_pm_main.c`) is not under `src/`.
Section 6: the collaborator polls `should_exit` in its own loop, calls
`receive_next`, and calls `acknowledge` exactly once per received command before
the next `receive_next`.  One transition of that loop; the return of
`procmgr_peek_cmd` is part of the transition that ends the call. -/
def pm_main (e : Option apr_status_t) (f : PmFrame) (s : Relay) : Option (PmFrame × Relay) :=
  match f.pc with
  | PmPc.poll =>
    if procmgr_must_exit s != 0 then some ({ f with pc := PmPc.ended }, s)
    else some ({ f with pc := PmPc.peek (PeekFrame.call f.command) }, s)
  | PmPc.peek pf =>
    match procmgr_peek_cmd e pf s with
    | none => none
    | some (pf', s') =>
      match pf'.pc with
      | PeekPc.ret rv =>
        -- the call has returned `rv`
        if rv == APR_SUCCESS then
          some ({ f with command := pf'.command, last := pf'.peakcmd, pc := PmPc.handle }, s')
        else some ({ f with pc := PmPc.poll }, s')
      | _ => some ({ f with pc := PmPc.peek pf' }, s')
  | PmPc.handle => some ({ f with pc := PmPc.notify }, s)
  | PmPc.notify =>
    match procmgr_finish_notify e s with
    | none => none
    | some (_, s') => some ({ f with pc := PmPc.poll }, s')
  | PmPc.ended => none

/-! ## The threads together -/

/-- The relay with its threads: the globals, one call of
`procmgr_post_spawn_cmd` per request thread (thread `t` is entry `t` of
`callers`), the process manager thread, the wake up thread, and the call of
`procmgr_stop_procmgr`. -/
structure Sys where
  g : Relay
  callers : List PostFrame
  pm : PmFrame
  wakeup : WakeupFrame
  stop : StopFrame
deriving DecidableEq

/-- What can happen next: a transition of one thread, with the environment
input of that transition. -/
inductive Act
  | caller (t : Nat) (e : Option apr_status_t)
  | pm (e : Option apr_status_t)
  | wakeup
  | stop_called
  | stop (e : Option apr_status_t)
deriving DecidableEq

/-- One transition of the whole; none once `exit(1)` has been called. -/
def step (a : Act) (s : Sys) : Option Sys :=
  if s.g.exited then none else
  match a with
  | Act.caller t e =>
    match s.callers[t]? with
    | none => none
    | some f =>
      match procmgr_post_spawn_cmd t e f s.g with
      | none => none
      | some (f', g') => some { s with g := g', callers := s.callers.set t f' }
  | Act.pm e =>
    match pm_main e s.pm s.g with
    | none => none
    | some (f', g') => some { s with g := g', pm := f' }
  | Act.wakeup =>
    match wakeup_thread s.wakeup s.g with
    | none => none
    | some (f', g') => some { s with g := g', wakeup := f' }
  | Act.stop_called =>
    if s.stop.pc = StopPc.idle then some { s with stop := StopFrame.call } else none
  | Act.stop e =>
    match procmgr_stop_procmgr e (s.pm.pc == PmPc.ended) (s.wakeup.pc == WakeupPc.ended)
        s.stop s.g with
    | none => none
    | some (f', g') => some { s with g := g', stop := f' }

/-- The transitions of a schedule, first to last. -/
def exec : List Act → Sys → Option Sys
  | [], s => some s
  | a :: as, s =>
    match step a s with
    | none => none
    | some s' => exec as s'

/-- The relay after `procmgr_post_config` in the environment `c`, with one
request thread per command of `cmds` about to call `procmgr_post_spawn_cmd`, the
process manager thread and the wake up thread at the top of their loops, and
`procmgr_stop_procmgr` not yet called. -/
def Sys.init (c : ConfigEnv) (cmds : List fcgid_command) : Sys :=
  { g := procmgr_post_config c Relay.start,
    callers := cmds.map PostFrame.call,
    pm := { pc := PmPc.poll, command := default, last := NULL },
    wakeup := { pc := WakeupPc.outer, i := 0 },
    stop := { pc := StopPc.idle, peakcmd := NULL } }

/-- The entries of the message queue, oldest first. -/
def msg_data (g : Relay) : List Ptr :=
  match g.g_msgqueue with
  | some q => q.data
  | none => []

/-- The call is between its successful `apr_thread_mutex_lock` (line 141) and
its return. -/
def in_critical (pc : PostPc) : Prop :=
  pc = PostPc.push ∨ pc = PostPc.push_failed ∨ pc = PostPc.wait_notify ∨ pc = PostPc.relock
    ∨ pc = PostPc.unlock

/-- The call has pushed its envelope and has not received a notify. -/
def awaiting (pc : PostPc) : Prop :=
  pc = PostPc.wait_notify ∨ pc = PostPc.relock ∨ ∃ rv, pc = PostPc.ret rv

/-- Number of envelopes (non-null entries) in a list of queue entries. -/
def envelopes (l : List Ptr) : Nat := l.countP (fun p => p != NULL)

/-- The envelope at `p` belongs to the call that holds the lock, and that call
has pushed it and has not received a notify.  `fr t` is the call of thread `t`
and `o` the holder of the lock. -/
def pending (fr : Nat → Option PostFrame) (o : Option Nat) (p : Ptr) : Prop :=
  ∃ t f, o = some t ∧ fr t = some f ∧ f.postcmd = p ∧ awaiting f.pc

/-- The invariant of the relay, on what it depends on: the calls `fr` of the
request threads, the holder `o` of the lock, the entries `ms` of the message
queue and `ns` of the notify queue, whether the process manager is busy with a
command, and the envelope `last` it received last. -/
structure InvV (fr : Nat → Option PostFrame) (o : Option Nat) (ms ns : List Ptr) (b : Bool)
    (last : Ptr) : Prop where
  holder : ∀ t, o = some t →
    ∃ f, fr t = some f ∧ (in_critical f.pc ∨ (∃ rv, f.pc = PostPc.ret rv) ∨ f.pc = PostPc.fatal)
  crit : ∀ t f, fr t = some f → in_critical f.pc → o = some t
  sent : ∀ p ∈ ms, p ≠ NULL → pending fr o p
  one_sent : envelopes ms ≤ 1
  one_ack : ns.length ≤ 1
  acked : ns ≠ [] → pending fr o last ∧ envelopes ms = 0 ∧ b = false
  busy : b = true → pending fr o last ∧ envelopes ms = 0 ∧ ns = []

/-- The call of `procmgr_stop_procmgr` is at its push of line 236, the exit flag
is set, the message queue is full, and the process manager is not inside a pop
of the message queue. -/
def stop_waits (s : Sys) : Prop :=
  s.stop.pc = StopPc.push ∧ s.g.g_must_exit ≠ 0
    ∧ (∃ q, s.g.g_msgqueue = some q ∧ q.bounds ≤ q.data.length)
    ∧ (∀ pf, s.pm.pc = PmPc.peek pf → pf.pc ≠ PeekPc.pop)

/-! ## Concrete inputs -/

/-- A command as `procmgr_init_spawn_cmd` fills it in (path `/php`). -/
def cmd_sample : fcgid_command :=
  { cgipath := [47, 112, 104, 112], deviceid := 2049, inode := 77, share_grp_id := 0,
    uid := -1, gid := -1, userdir := 0 }

/-- The scan intervals of the scenario of the specification (5, 2, 0); no
creation call fails. -/
def cfg_sample : ConfigEnv :=
  { error_scan_interval := 5, busy_scan_interval := 2, idle_scan_interval := 0,
    msgqueue_fails := false, notifyqueue_fails := false, mutex_fails := false,
    thread_fails := false, wakeup_thread_fails := false }

/-- A configuration with a negative scan interval. -/
def cfg_negative : ConfigEnv :=
  { cfg_sample with
    error_scan_interval := -1,
    busy_scan_interval := 5,
    idle_scan_interval := 5 }

/-- The globals after `procmgr_post_config` for `cfg_sample`. -/
def relay_running : Relay := procmgr_post_config cfg_sample Relay.start

/-- The running relay with two envelopes and a wake up message in the message
queue. -/
def relay_loaded : Relay :=
  { relay_running with
    g_msgqueue := some { data := [1, NULL, 2], bounds := FCGID_MSGQUEUE_SIZE },
    heap := { cells := [(2, cmd_sample), (1, cmd_sample)], allocs := 2, freed := [] } }

/-- The environment in which the primitive called at `pc` fails with `rv`. -/
def fault_at {α : Type} [DecidableEq α] (pc : α) (rv : apr_status_t) : α → Option apr_status_t :=
  fun x => if x = pc then some rv else none

/-- Four transitions of `wakeup_thread`: one round of its outer loop when the
wake up interval is 1. -/
def wakeup_round : List Act := [Act.wakeup, Act.wakeup, Act.wakeup, Act.wakeup]

/-- A schedule: thread 0 posts a command, the process manager receives it and
is in its handler; the wake up thread runs ten rounds; `procmgr_stop_procmgr`
is called and sets the flag; the handler ends, the notify is sent and taken,
and every thread but the caller of `procmgr_stop_procmgr` runs to its end. -/
def full_queue_schedule : List Act :=
  [Act.caller 0 none, Act.caller 0 none, Act.caller 0 none, Act.caller 0 none,
   Act.pm none, Act.pm none, Act.pm none]
  ++ (wakeup_round ++ wakeup_round ++ wakeup_round ++ wakeup_round ++ wakeup_round
      ++ wakeup_round ++ wakeup_round ++ wakeup_round ++ wakeup_round ++ wakeup_round)
  ++ [Act.stop_called, Act.stop none,
      Act.pm none, Act.pm none, Act.pm none,
      Act.caller 0 none, Act.caller 0 none,
      Act.wakeup]

/-- The state at the end of `full_queue_schedule`. -/
def full_queue_state : Sys :=
  { g := { relay_running with
      g_msgqueue := some { data := List.replicate 10 NULL, bounds := FCGID_MSGQUEUE_SIZE },
      g_must_exit := 1,
      heap := { cells := [], allocs := 1, freed := [1] } },
    callers := [{ pc := PostPc.ret APR_SUCCESS, command := cmd_sample, postcmd := 1,
                  rv := APR_SUCCESS, notifybyte := NULL }],
    pm := { pc := PmPc.ended, command := cmd_sample, last := 1 },
    wakeup := { pc := WakeupPc.ended, i := 1 },
    stop := { pc := StopPc.push, peakcmd := NULL } }

theorem read_free_self (h : Heap) (p : Ptr) : (free h p).read p = none := by
  simp [free, Heap.read, List.find?_eq_none]

theorem read_memcpy_malloc (h : Heap) (c : fcgid_command) :
    (memcpy (malloc h).2 (malloc h).1 c).read (malloc h).1 = some c := by
  simp [memcpy, malloc, Heap.read, List.find?]

theorem push_success (e : Option apr_status_t) (q q' : apr_queue_t) (x : Ptr)
    (h : apr_queue_push e q x = some (APR_SUCCESS, q')) :
    q' = { q with data := q.data ++ [x] } ∧ q.data.length < q.bounds := by
  unfold apr_queue_push at h
  repeat' split at h
  all_goals simp at h
  · exact ⟨h.symm, by assumption⟩
  · exact absurd h.1 (by assumption)

theorem push_failure (e : Option apr_status_t) (q q' : apr_queue_t) (x : Ptr)
    (rv : apr_status_t) (h : apr_queue_push e q x = some (rv, q')) (hrv : rv ≠ APR_SUCCESS) :
    q' = q ∧ q.bounds ≤ q.data.length ∧ e = some rv := by
  unfold apr_queue_push at h
  repeat' split at h
  all_goals simp at h
  · exact absurd h.1.symm hrv
  · rename_i hlen _ _ _
    exact ⟨h.2.symm, by omega, by rw [h.1]⟩

theorem pop_failure (e : Option apr_status_t) (q q' : apr_queue_t) (out x : Ptr)
    (rv : apr_status_t) (h : apr_queue_pop e q out = some (rv, x, q')) (hrv : rv ≠ APR_SUCCESS) :
    q' = q ∧ q.data = [] ∧ x = out ∧ e = some rv := by
  unfold apr_queue_pop at h
  repeat' split at h
  all_goals simp at h
  · exact absurd h.1.symm hrv
  · rename_i hd _ _ _
    exact ⟨h.2.2.symm, hd, h.2.1.symm, by rw [h.1]⟩

/-! ## `procmgr_post_config` -/

/-- Claim C6, amended: for every triple of scan intervals none of which is
negative, the wake up interval that `procmgr_post_config` computes at lines
76-82 (reached when the three creation calls before succeed) is
max(1, min(error, busy, idle)) and is at least 1; for (5, 2, 0) it is 1. -/
theorem wakeup_timeout_floor (c : ConfigEnv) (s : Relay)
    (h1 : c.msgqueue_fails = false) (h2 : c.notifyqueue_fails = false)
    (h3 : c.mutex_fails = false)
    (he : 0 ≤ c.error_scan_interval) (hb : 0 ≤ c.busy_scan_interval)
    (hi : 0 ≤ c.idle_scan_interval) :
    (procmgr_post_config c s).g_wakeup_timeout =
        max 1 (min c.error_scan_interval (min c.busy_scan_interval c.idle_scan_interval))
    ∧ 1 ≤ (procmgr_post_config c s).g_wakeup_timeout
    ∧ (c.error_scan_interval = 5 → c.busy_scan_interval = 2 → c.idle_scan_interval = 0 →
        (procmgr_post_config c s).g_wakeup_timeout = 1) := by
  have key : (procmgr_post_config c s).g_wakeup_timeout =
      if c_min c.idle_scan_interval (c_min c.error_scan_interval c.busy_scan_interval) = 0 then 1
      else c_min c.idle_scan_interval (c_min c.error_scan_interval c.busy_scan_interval) := by
    simp only [procmgr_post_config, h1, h2, h3]
    by_cases h : c_min c.idle_scan_interval (c_min c.error_scan_interval c.busy_scan_interval) = 0
    · simp [h]; split <;> (try split) <;> rfl
    · simp [h]; split <;> (try split) <;> rfl
  have hmin : c_min c.idle_scan_interval (c_min c.error_scan_interval c.busy_scan_interval)
      = min c.error_scan_interval (min c.busy_scan_interval c.idle_scan_interval) := by
    unfold c_min
    split <;> split <;> omega
  rw [hmin] at key
  refine ⟨?_, ?_, ?_⟩
  · rw [key]
    split <;> omega
  · rw [key]
    split <;> omega
  · intro he5 hb2 hi0
    rw [key, he5, hb2, hi0]
    decide

/-- Witness of `wakeup_timeout_floor`: the scenario (5, 2, 0). -/
theorem wakeup_timeout_floor_witness :
    (procmgr_post_config cfg_sample Relay.start).g_wakeup_timeout = 1 :=
  (wakeup_timeout_floor cfg_sample Relay.start rfl rfl rfl (by decide) (by decide)
    (by decide)).2.2 rfl rfl rfl

/-- Counterexample to claim C6 as stated: for the scan intervals (-1, 5, 5) the
stored wake up interval is -1, which is neither max(1, min(-1, 5, 5)) = 1 nor
at least 1. -/
theorem wakeup_timeout_negative :
    (procmgr_post_config cfg_negative Relay.start).g_wakeup_timeout = -1
    ∧ (procmgr_post_config cfg_negative Relay.start).g_wakeup_timeout
        ≠ max 1 (min (-1) (min 5 5))
    ∧ ¬ 1 ≤ (procmgr_post_config cfg_negative Relay.start).g_wakeup_timeout := by
  decide

/-! ## `procmgr_peek_cmd` run alone -/

theorem peek_step_pc (e : Option apr_status_t) (f f' : PeekFrame) (s s' : Relay)
    (h : procmgr_peek_cmd e f s = some (f', s')) :
    f'.pc = PeekPc.pop ∨ f'.pc = PeekPc.ret APR_TIMEUP ∨ f'.pc = PeekPc.ret APR_SUCCESS := by
  unfold procmgr_peek_cmd at h
  repeat' split at h
  all_goals first
    | (simp at h; done)
    | (simp only [Option.some.injEq, Prod.mk.injEq] at h; rw [← h.1]; simp)

theorem run_peek_pc (env : PeekPc → Option apr_status_t) (n : Nat) (f : PeekFrame) (s : Relay)
    (hf : ∀ rv, f.pc = PeekPc.ret rv → rv = APR_SUCCESS ∨ rv = APR_TIMEUP) (rv : apr_status_t)
    (h : (run_peek env n f s).1.pc = PeekPc.ret rv) : rv = APR_SUCCESS ∨ rv = APR_TIMEUP := by
  induction n generalizing f s with
  | zero => exact hf rv h
  | succ n ih =>
    simp only [run_peek] at h
    split at h
    · exact hf rv h
    · rename_i f' s' hstep
      refine ih f' s' ?_ h
      intro rv' hrv'
      rcases peek_step_pc _ _ _ _ _ hstep with h1 | h1 | h1 <;> rw [h1] at hrv' <;> simp at hrv'
      · exact Or.inr hrv'.symm
      · exact Or.inl hrv'.symm

/-- Claim C3: with the exit flag clear and a non-empty message queue,
`procmgr_peek_cmd` removes exactly the head entry and keeps the rest in order.
If the head is `NULL` it returns `APR_TIMEUP` and the storage of its caller is
unchanged; if the head is the address of a live envelope it returns
`APR_SUCCESS`, the storage holds the content of the envelope, and the envelope
has been freed.  In no state and no environment does the call return a status
other than `APR_SUCCESS` or `APR_TIMEUP`. -/
theorem peek_cmd_head (storage : fcgid_command) (s : Relay) (q : apr_queue_t) (x : Ptr)
    (rest : List Ptr) (h0 : s.g_must_exit = 0) (hq : s.g_msgqueue = some q)
    (hd : q.data = x :: rest) :
    (x = NULL → call_peek no_fault storage s =
        ({ pc := PeekPc.ret APR_TIMEUP, command := storage, peakcmd := NULL },
         { s with g_msgqueue := some { q with data := rest } }))
    ∧ (∀ c, x ≠ NULL → s.heap.read x = some c →
        call_peek no_fault storage s =
          ({ pc := PeekPc.ret APR_SUCCESS, command := c, peakcmd := x },
           { s with g_msgqueue := some { q with data := rest }, heap := free s.heap x })
        ∧ (free s.heap x).read x = none ∧ x ∈ (free s.heap x).freed)
    ∧ (∀ env storage' s' rv, (call_peek env storage' s').1.pc = PeekPc.ret rv →
        rv = APR_SUCCESS ∨ rv = APR_TIMEUP) := by
  refine ⟨?_, ?_, ?_⟩
  · intro hx
    subst hx
    simp [call_peek, run_peek, procmgr_peek_cmd, PeekFrame.call, no_fault, h0, hq,
      apr_queue_pop, hd, APR_SUCCESS, NULL]
  · intro c hx hc
    refine ⟨?_, read_free_self _ _, by simp [free]⟩
    have hx' : ¬ x = 0 := hx
    simp [call_peek, run_peek, procmgr_peek_cmd, PeekFrame.call, no_fault, h0, hq,
      apr_queue_pop, hd, APR_SUCCESS, NULL, hx', hc]
  · intro env storage' s' rv h
    exact run_peek_pc env 4 (PeekFrame.call storage') s' (by intro r hr; cases hr) rv h

/-- Witness of `peek_cmd_head`: the queue holds the envelope 1, a wake up
message and the envelope 2; the call delivers the content of envelope 1. -/
theorem peek_cmd_head_witness :
    (call_peek no_fault default relay_loaded).1.command = cmd_sample
    ∧ (call_peek no_fault default relay_loaded).1.pc = PeekPc.ret APR_SUCCESS :=
  have h := ((peek_cmd_head default relay_loaded
    { data := [1, NULL, 2], bounds := FCGID_MSGQUEUE_SIZE } 1 [NULL, 2]
    (by decide) (by decide) rfl).2.1 cmd_sample (by decide) (by decide)).1
  ⟨by rw [h], by rw [h]⟩

/-! ## `procmgr_post_spawn_cmd` run alone -/

/-- Claim C1: round trip from `procmgr_post_spawn_cmd` to `procmgr_peek_cmd`.
In a running relay (the test of line 126 passes) whose message queue is empty,
with the request lock free and no primitive failing, the call for the command
`c`, run up to and including its push of line 148, stands at the pop of the
notify queue and has put exactly one entry in the message queue: a non-null
envelope whose content is `c`.  On that state `procmgr_peek_cmd` returns
`APR_SUCCESS`, writes `c` into the storage of its caller, and leaves the message
queue empty again.  (With an empty notify queue the whole call, run alone, waits
in exactly that state.) -/
theorem post_then_peek_round_trip (t : Nat) (c storage : fcgid_command) (s : Relay)
    (q nq : apr_queue_t) (m : apr_thread_mutex_t)
    (ht : s.g_thread = true) (hq : s.g_msgqueue = some q) (he : s.g_must_exit = 0)
    (hl : s.g_reqlock = some m) (hn : s.g_notifyqueue = some nq)
    (hd : q.data = []) (hb : 0 < q.bounds) (hm : m.owner = none) :
    (run_post t no_fault 4 (PostFrame.call c) s).1.pc = PostPc.wait_notify
    ∧ (run_post t no_fault 4 (PostFrame.call c) s).1.postcmd ≠ NULL
    ∧ (run_post t no_fault 4 (PostFrame.call c) s).2.g_msgqueue =
        some { q with data := [(run_post t no_fault 4 (PostFrame.call c) s).1.postcmd] }
    ∧ (run_post t no_fault 4 (PostFrame.call c) s).2.heap.read
        (run_post t no_fault 4 (PostFrame.call c) s).1.postcmd = some c
    ∧ (call_peek no_fault storage (run_post t no_fault 4 (PostFrame.call c) s).2).1 =
        { pc := PeekPc.ret APR_SUCCESS, command := c,
          peakcmd := (run_post t no_fault 4 (PostFrame.call c) s).1.postcmd }
    ∧ (call_peek no_fault storage (run_post t no_fault 4 (PostFrame.call c) s).2).2.g_msgqueue =
        some { q with data := [] }
    ∧ (nq.data = [] → call_post t no_fault c s = run_post t no_fault 4 (PostFrame.call c) s) := by
  have hrun : run_post t no_fault 4 (PostFrame.call c) s =
      ({ pc := PostPc.wait_notify, command := c, postcmd := (malloc s.heap).1,
         rv := APR_SUCCESS, notifybyte := NULL },
       { s with g_msgqueue := some { q with data := [(malloc s.heap).1] },
                g_reqlock := some { owner := some t, depth := 1 },
                heap := memcpy (malloc s.heap).2 (malloc s.heap).1 c }) := by
    simp [run_post, procmgr_post_spawn_cmd, PostFrame.call, no_fault, ht, hq, he, hl, hn, hm,
      apr_thread_mutex_lock, apr_queue_push, hd, hb, APR_SUCCESS]
  have hcall : nq.data = [] →
      call_post t no_fault c s = run_post t no_fault 4 (PostFrame.call c) s := by
    intro hnq
    rw [hrun]
    simp [call_post, run_post, procmgr_post_spawn_cmd, PostFrame.call, no_fault, ht, hq, he, hl,
      hn, hm, apr_thread_mutex_lock, apr_queue_push, apr_queue_pop, hd, hb, hnq, APR_SUCCESS]
  rw [hrun] at hcall ⊢
  have hne : (malloc s.heap).1 ≠ 0 := by simp [malloc]
  refine ⟨rfl, hne, rfl, read_memcpy_malloc _ _, ?_, ?_, hcall⟩
  · simp [call_peek, run_peek, procmgr_peek_cmd, PeekFrame.call, no_fault, he, apr_queue_pop,
      APR_SUCCESS, NULL, hne, read_memcpy_malloc]
  · simp [call_peek, run_peek, procmgr_peek_cmd, PeekFrame.call, no_fault, he, apr_queue_pop,
      APR_SUCCESS, NULL, hne, read_memcpy_malloc]

/-- Witness of `post_then_peek_round_trip`: thread 0 posts `cmd_sample` to the
relay as `procmgr_post_config` leaves it. -/
theorem post_then_peek_round_trip_witness :
    (call_peek no_fault default
        (run_post 0 no_fault 4 (PostFrame.call cmd_sample) relay_running).2).1 =
      { pc := PeekPc.ret APR_SUCCESS, command := cmd_sample,
        peakcmd := (run_post 0 no_fault 4 (PostFrame.call cmd_sample) relay_running).1.postcmd } :=
  (post_then_peek_round_trip 0 cmd_sample default relay_running
    { data := [], bounds := FCGID_MSGQUEUE_SIZE } { data := [], bounds := FCGID_MSGQUEUE_SIZE }
    { owner := none, depth := 0 } (by decide) (by decide) (by decide) (by decide) (by decide)
    rfl (by decide) rfl).2.2.2.2.1

/-- Claim C10: the path of a failed notify.  In a running relay with the request
lock free, if the allocation, the lock and the push of the envelope succeed and
the pop of line 159 fails with status `rv`, the call calls
`apr_thread_mutex_lock` a second time instead of unlocking (the lock is then
held twice by the caller, or once if that second call fails) and returns `rv`:
on return the lock is held by the caller, the envelope is still in the message
queue and has not been freed, and the process has not been terminated. -/
theorem post_notify_pop_failure_relocks (t : Nat) (env : PostPc → Option apr_status_t)
    (c : fcgid_command) (s : Relay) (q nq nq' : apr_queue_t) (m : apr_thread_mutex_t)
    (rv : apr_status_t) (x : Ptr)
    (ht : s.g_thread = true) (hq : s.g_msgqueue = some q) (he : s.g_must_exit = 0)
    (hl : s.g_reqlock = some m) (hn : s.g_notifyqueue = some nq)
    (ha : env PostPc.alloc = none) (hk : env PostPc.lock = none) (hm : m.owner = none)
    (hp : env PostPc.push = none) (hroom : q.data.length < q.bounds)
    (hpop : apr_queue_pop (env PostPc.wait_notify) nq NULL = some (rv, x, nq'))
    (hrv : rv ≠ APR_SUCCESS) (hr : env PostPc.relock ≠ some APR_SUCCESS) :
    (call_post t env c s).1.pc = PostPc.ret rv
    ∧ (call_post t env c s).2.g_reqlock =
        some { owner := some t, depth := if env PostPc.relock = none then 2 else 1 }
    ∧ (call_post t env c s).2.g_msgqueue =
        some { q with data := q.data ++ [(call_post t env c s).1.postcmd] }
    ∧ (call_post t env c s).2.heap.read (call_post t env c s).1.postcmd = some c
    ∧ (call_post t env c s).2.heap.freed = s.heap.freed
    ∧ (call_post t env c s).2.exited = s.exited := by
  have hrv' : ¬ rv = 0 := hrv
  obtain ⟨hnq, -, hx, -⟩ := pop_failure _ _ _ _ _ _ hpop hrv
  subst hnq
  subst hx
  have hw := hpop
  rcases hre : env PostPc.relock with _ | r
  · simp [call_post, run_post, procmgr_post_spawn_cmd, PostFrame.call, ht, hq, he, hl, hn, ha, hk,
      hm, hp, hroom, hw, hre, apr_thread_mutex_lock, apr_queue_push, APR_SUCCESS, hrv',
      read_memcpy_malloc]
    simp [memcpy, malloc]
  · have hr' : ¬ r = 0 := by
      intro h
      apply hr
      rw [hre, h]
      rfl
    simp [call_post, run_post, procmgr_post_spawn_cmd, PostFrame.call, ht, hq, he, hl, hn, ha, hk,
      hm, hp, hroom, hw, hre, apr_thread_mutex_lock, apr_queue_push, APR_SUCCESS, hrv', hr',
      read_memcpy_malloc]
    simp [memcpy, malloc]

/-- Witness of `post_notify_pop_failure_relocks`: the wait for the notify is
broken off with `APR_EOF`; the call returns `APR_EOF` and thread 0 holds the lock
twice. -/
theorem post_notify_pop_failure_relocks_witness :
    (call_post 0 (fault_at PostPc.wait_notify APR_EOF) cmd_sample relay_running).1.pc
        = PostPc.ret APR_EOF
    ∧ (call_post 0 (fault_at PostPc.wait_notify APR_EOF) cmd_sample relay_running).2.g_reqlock
        = some { owner := some 0, depth := 2 } :=
  have h := post_notify_pop_failure_relocks 0 (fault_at PostPc.wait_notify APR_EOF) cmd_sample
    relay_running { data := [], bounds := FCGID_MSGQUEUE_SIZE }
    { data := [], bounds := FCGID_MSGQUEUE_SIZE } { data := [], bounds := FCGID_MSGQUEUE_SIZE }
    { owner := none, depth := 0 } APR_EOF NULL
    (by decide) (by decide) (by decide) (by decide) (by decide) (by decide) (by decide) rfl
    (by decide) (by decide) (by decide) (by decide) (by decide)
  ⟨h.1, h.2.1.trans (by decide)⟩

/-! ## `procmgr_stop_procmgr` run alone -/

theorem envelopes_nil : envelopes [] = 0 := rfl

section view

variable {fr : Nat → Option PostFrame} {o : Option Nat} {ms ns : List Ptr} {b : Bool}
  {last : Ptr}

/-- Line 185: the process manager sends the notify, or the push fails. -/
theorem InvV.notify {ns' : List Ptr} (hI : InvV fr o ms ns true last)
    (hn : ns' = ns ++ [NULL] ∨ ns' = ns) : InvV fr o ms ns' false last := by
  obtain ⟨h1, h2, h3⟩ := hI.busy rfl
  subst h3
  refine ⟨hI.holder, hI.crit, hI.sent, hI.one_sent, ?_, ?_, ?_⟩
  · rcases hn with h | h <;> simp [h]
  · intro _; exact ⟨h1, h2, rfl⟩
  · intro h; cases h

end view


/-! ### Effects of the primitives -/

theorem push_effect (e : Option apr_status_t) (q q' : apr_queue_t) (x : Ptr)
    (rv : apr_status_t) (h : apr_queue_push e q x = some (rv, q')) :
    (rv = APR_SUCCESS ∧ q'.data = q.data ++ [x]) ∨ (rv ≠ APR_SUCCESS ∧ q' = q) := by
  by_cases hrv : rv = APR_SUCCESS
  · subst hrv
    exact Or.inl ⟨rfl, by rw [(push_success _ _ _ _ h).1]⟩
  · exact Or.inr ⟨hrv, (push_failure _ _ _ _ _ h hrv).1⟩

theorem post_keeps (t : Nat) (e : Option apr_status_t) (f f' : PostFrame) (g g' : Relay)
    (h : procmgr_post_spawn_cmd t e f g = some (f', g')) :
    g'.g_must_exit = g.g_must_exit
    ∧ (∀ q, g.g_msgqueue = some q → q.bounds ≤ q.data.length → g'.g_msgqueue = some q) := by
  unfold procmgr_post_spawn_cmd at h
  split at h
  case h_4 =>
    split at h
    · cases h
    rename_i q hq
    split at h
    · cases h
    rename_i rv q' hp
    have hq' : q.bounds ≤ q.data.length → q' = q := by
      intro hfull
      rcases push_effect _ _ _ _ _ hp with ⟨hrv, -⟩ | ⟨-, h2⟩
      · subst hrv
        have := (push_success _ _ _ _ hp).2
        omega
      · exact h2
    split at h <;> simp only [Option.some.injEq, Prod.mk.injEq] at h <;>
      obtain ⟨rfl, rfl⟩ := h <;> refine ⟨rfl, ?_⟩ <;> intro q0 hq0 hfull <;>
      rw [hq] at hq0 <;> cases hq0 <;> simp [hq' hfull]
  all_goals
    repeat' split at h
    all_goals first
      | (cases h; done)
      | (simp only [Option.some.injEq, Prod.mk.injEq] at h
         obtain ⟨rfl, rfl⟩ := h
         exact ⟨rfl, fun q hq _ => hq⟩)

theorem peek_keeps (e : Option apr_status_t) (f f' : PeekFrame) (g g' : Relay)
    (h : procmgr_peek_cmd e f g = some (f', g')) (hx : g.g_must_exit ≠ 0)
    (hp : f.pc ≠ PeekPc.pop) : f'.pc = PeekPc.ret APR_TIMEUP ∧ g' = g := by
  unfold procmgr_peek_cmd at h
  split at h
  · have : (g.g_must_exit == 0 && g.g_msgqueue.isSome) = false := by simp [hx]
    simp only [this, Bool.false_eq_true, if_false, Option.some.injEq, Prod.mk.injEq] at h
    obtain ⟨rfl, rfl⟩ := h
    exact ⟨rfl, rfl⟩
  · rename_i hpc
    exact absurd hpc hp
  · cases h

theorem pm_keeps (e : Option apr_status_t) (f f' : PmFrame) (g g' : Relay)
    (h : pm_main e f g = some (f', g')) (hx : g.g_must_exit ≠ 0)
    (hp : ∀ pf, f.pc = PmPc.peek pf → pf.pc ≠ PeekPc.pop) :
    g'.g_must_exit = g.g_must_exit ∧ g'.g_msgqueue = g.g_msgqueue
    ∧ (∀ pf, f'.pc = PmPc.peek pf → pf.pc ≠ PeekPc.pop) := by
  unfold pm_main at h
  split at h
  · simp only [procmgr_must_exit, bne_iff_ne, ne_eq, hx, not_false_eq_true, if_true,
      Option.some.injEq, Prod.mk.injEq] at h
    obtain ⟨rfl, rfl⟩ := h
    exact ⟨rfl, rfl, by intro pf hpf; cases hpf⟩
  · rename_i pf hpc
    split at h
    · cases h
    rename_i pf' g1 hpk
    obtain ⟨h1, h2⟩ := peek_keeps _ _ _ _ _ hpk hx (hp pf hpc)
    subst h2
    rw [h1] at h
    simp only [APR_TIMEUP, APR_SUCCESS, beq_iff_eq] at h
    simp only [show ¬ ((70007 : Int) = 0) by decide, if_false, Option.some.injEq,
      Prod.mk.injEq] at h
    obtain ⟨rfl, rfl⟩ := h
    exact ⟨rfl, rfl, by intro pf hpf; cases hpf⟩
  · simp only [Option.some.injEq, Prod.mk.injEq] at h
    obtain ⟨rfl, rfl⟩ := h
    exact ⟨rfl, rfl, by intro pf hpf; cases hpf⟩
  · split at h
    · cases h
    rename_i rv g1 hfn
    simp only [Option.some.injEq, Prod.mk.injEq] at h
    obtain ⟨rfl, rfl⟩ := h
    unfold procmgr_finish_notify at hfn
    repeat' split at hfn
    all_goals first
      | (cases hfn; done)
      | (simp only [Option.some.injEq, Prod.mk.injEq] at hfn
         obtain ⟨-, rfl⟩ := hfn
         exact ⟨rfl, rfl, by intro pf hpf; cases hpf⟩)
  · cases h

theorem wakeup_keeps (f f' : WakeupFrame) (g g' : Relay)
    (h : wakeup_thread f g = some (f', g')) (hx : g.g_must_exit ≠ 0) : g' = g := by
  unfold wakeup_thread at h
  repeat' split at h
  all_goals first
    | (cases h; done)
    | (simp only [Option.some.injEq, Prod.mk.injEq] at h
       obtain ⟨-, rfl⟩ := h
       first
         | rfl
         | (rename_i h0
            simp only [beq_iff_eq] at h0
            exact absurd h0 hx))

theorem stop_waits_step (a : Act) (s s' : Sys) (hw : stop_waits s)
    (ha : ∀ rv, a ≠ Act.stop (some rv)) (h : step a s = some s') : stop_waits s' := by
  obtain ⟨hpc, hx, ⟨q, hq, hfull⟩, hpm⟩ := hw
  unfold step at h
  split at h
  · cases h
  split at h
  · split at h
    · cases h
    split at h
    · cases h
    rename_i f' g' hstep
    simp only [Option.some.injEq] at h
    subst h
    obtain ⟨h1, h2⟩ := post_keeps _ _ _ _ _ _ hstep
    exact ⟨hpc, by simpa [h1] using hx, ⟨q, h2 q hq hfull, hfull⟩, hpm⟩
  · split at h
    · cases h
    rename_i f' g' hstep
    simp only [Option.some.injEq] at h
    subst h
    obtain ⟨h1, h2, h3⟩ := pm_keeps _ _ _ _ _ hstep hx hpm
    exact ⟨hpc, by simpa [h1] using hx, ⟨q, by simpa [h2] using hq, hfull⟩, h3⟩
  · split at h
    · cases h
    rename_i f' g' hstep
    simp only [Option.some.injEq] at h
    subst h
    have := wakeup_keeps _ _ _ _ hstep hx
    subst this
    exact ⟨hpc, hx, ⟨q, hq, hfull⟩, hpm⟩
  · rw [hpc] at h
    simp at h
  · rename_i e
    cases e with
    | some rv => exact absurd rfl (ha rv)
    | none =>
      have hnf : ¬ q.data.length < q.bounds := by omega
      simp [procmgr_stop_procmgr, hpc, hq, apr_queue_push, hnf] at h

theorem stop_waits_exec (as : List Act) (s s' : Sys) (hw : stop_waits s)
    (ha : ∀ rv, Act.stop (some rv) ∉ as) (h : exec as s = some s') : stop_waits s' := by
  induction as generalizing s with
  | nil =>
    simp only [exec, Option.some.injEq] at h
    subst h
    exact hw
  | cons a as ih =>
    simp only [exec] at h
    split at h
    · cases h
    · rename_i s1 hs1
      refine ih s1 (stop_waits_step a s s1 hw ?_ hs1) ?_ h
      · intro rv hrv
        exact ha rv (by simp [hrv])
      · intro rv hrv
        exact ha rv (List.mem_cons_of_mem _ hrv)

theorem full_queue_state_stuck (a : Act) (ha : ∀ rv, a ≠ Act.stop (some rv)) :
    step a full_queue_state = none := by
  cases a with
  | caller t e =>
    cases t with
    | zero => simp [step, full_queue_state, relay_running, procmgr_post_config, cfg_sample,
        Relay.start, procmgr_post_spawn_cmd]
    | succ n => simp [step, full_queue_state, relay_running, procmgr_post_config, cfg_sample,
        Relay.start]
  | pm e => simp [step, full_queue_state, relay_running, procmgr_post_config, cfg_sample,
        Relay.start, pm_main]
  | wakeup => simp [step, full_queue_state, relay_running, procmgr_post_config, cfg_sample,
        Relay.start, wakeup_thread]
  | stop_called => simp [step, full_queue_state, relay_running, procmgr_post_config, cfg_sample,
        Relay.start]
  | stop e =>
    cases e with
    | some rv => exact absurd rfl (ha rv)
    | none => decide

/-- Claim C8, the code at the failing input: `full_queue_schedule` leads from
the start of the relay to a state in which the message queue holds its ten
entries, the exit flag is set and `procmgr_stop_procmgr` stands at its push of
line 236.  In that state no thread has a transition unless the wait of that
push is broken off with a failure status, and from any state of that kind (push
of line 236 pending, flag set, queue full, process manager not inside a pop) no
schedule without such a failure ever takes `procmgr_stop_procmgr` past the
push. -/
theorem stop_blocks_on_full_queue :
    exec full_queue_schedule (Sys.init cfg_sample [cmd_sample]) = some full_queue_state
    ∧ msg_data full_queue_state.g = List.replicate FCGID_MSGQUEUE_SIZE NULL
    ∧ full_queue_state.g.g_must_exit = 1
    ∧ full_queue_state.stop.pc = StopPc.push
    ∧ (∀ a, (∀ rv, a ≠ Act.stop (some rv)) → step a full_queue_state = none)
    ∧ (∀ (as : List Act) (s s' : Sys), stop_waits s → (∀ rv, Act.stop (some rv) ∉ as) →
        exec as s = some s' → s'.stop.pc = StopPc.push) := by
  refine ⟨by decide, by decide, by decide, rfl, full_queue_state_stuck, ?_⟩
  intro as s s' hw ha h
  exact (stop_waits_exec as s s' hw ha h).1

end ModFcgid
